/-
  Verification of the mortgage payment calculation engine of the repository
  (src/react_agent/custom_get_rate_tool_v3.py) against its specification.

  Modelling conventions:
  * Python numbers (int/float) are modelled as exact rationals (ℚ).  All the
    tolerances stated by the spec (±$0.01) are orders of magnitude larger than
    binary floating point error at these magnitudes.
  * Python strings are modelled as List Char.  The specific regular expression
    operations used by parse_currency_amount are implemented faithfully below
    (word-boundary semantics of \b, leftmost match, alternation order,
    greedy optional groups).
  * Python round(x, n) (banker's rounding / round-half-to-even) is modelled
    exactly on rationals.
  * The external rate fetch (requests.get + page scrape) is modelled by
    passing the outcome of the external call as an explicit parameter.
  * Python exceptions that are caught and converted to user-facing messages
    are modelled with Except; the uncaught IndexError from
    LOAN_LIMITS[...][units - 1] has its own error constructor, distinct from
    every user-facing message.
-/
import Mathlib

set_option maxRecDepth 10000
set_option linter.unusedVariables false

namespace GetRateModel

/-! ## Small utilities: characters, strings, rounding, powers -/

/-- Character list of a string literal (model of a Python str). -/
def chars (s : String) : List Char := s.toList

/-- ASCII lower-casing of a single character; model of what str.lower() does on
the ASCII inputs this tool receives. -/
def pyToLower (c : Char) : Char :=
  match c with
  | 'A' => 'a' | 'B' => 'b' | 'C' => 'c' | 'D' => 'd' | 'E' => 'e' | 'F' => 'f' | 'G' => 'g'
  | 'H' => 'h' | 'I' => 'i' | 'J' => 'j' | 'K' => 'k' | 'L' => 'l' | 'M' => 'm' | 'N' => 'n'
  | 'O' => 'o' | 'P' => 'p' | 'Q' => 'q' | 'R' => 'r' | 'S' => 's' | 'T' => 't' | 'U' => 'u'
  | 'V' => 'v' | 'W' => 'w' | 'X' => 'x' | 'Y' => 'y' | 'Z' => 'z'
  | c => c

/-- Model of str.strip(): remove leading and trailing whitespace. -/
def stripWs (l : List Char) : List Char :=
  ((l.dropWhile Char.isWhitespace).reverse.dropWhile Char.isWhitespace).reverse

/-- Round a rational to the nearest integer, ties to even
(Python's round() on an exactly-represented value). -/
def roundHalfEven (q : ℚ) : ℤ :=
  let f := ⌊q⌋
  let frac := q - f
  if frac < 1/2 then f
  else if 1/2 < frac then f + 1
  else if f % 2 = 0 then f else f + 1

/-- Iterated multiplication; model of Python's x ** n for natural n. -/
def powq (q : ℚ) : ℕ → ℚ
  | 0 => 1
  | n + 1 => powq q n * q

/-- Model of Python round(q, ndigits). -/
def pyRound (q : ℚ) (ndigits : ℕ) : ℚ :=
  (roundHalfEven (q * powq 10 ndigits) : ℚ) / powq 10 ndigits

/-- Model of the Python list subscript lst[i] on a 4-entry limits table:
non-negative in-range indices and negative indices ≥ -len succeed (negative
indices count from the end); anything else raises IndexError. -/
def pyListGet (l : List ℚ) (i : ℤ) : Except Unit ℚ :=
  if 0 ≤ i ∧ i < (l.length : ℤ) then .ok (l.getD i.toNat 0)
  else if -(l.length : ℤ) ≤ i ∧ i < 0 then .ok (l.getD ((l.length : ℤ) + i).toNat 0)
  else .error ()

/-! ## The pieces of parse_currency_amount (source lines 35-85) -/

/-- A character matched by the regex class [\d.] -/
def isNumChar (c : Char) : Bool := c.isDigit || c = '.'

/-- A character matched by the regex class \w (relevant ASCII part). -/
def isWordChar (c : Char) : Bool := c.isAlphanum || c = '_'

/-- re.findall(r'[\d.]+', l): the maximal runs of digits/dots, left to right.
The accumulator holds the current run, in reverse. -/
def findRunsGo : List Char → List Char → List (List Char)
  | [], acc => if acc.isEmpty then [] else [acc.reverse]
  | c :: cs, acc =>
    if isNumChar c then findRunsGo cs (c :: acc)
    else if acc.isEmpty then findRunsGo cs []
    else acc.reverse :: findRunsGo cs []

def findRuns (l : List Char) : List (List Char) := findRunsGo l []

/-- Numeric value of a digit string (most significant first). -/
def digitsToNat (l : List Char) : ℕ := l.foldl (fun a c => 10 * a + (c.toNat - 48)) 0

/-- Model of Python float(s) for the strings produced here (runs of digits and
dots, or a digit string with one dot from a regex group): succeeds iff the
string has at least one digit and at most one dot. -/
def pyFloat (l : List Char) : Except Unit ℚ :=
  if l.all isNumChar ∧ l.any Char.isDigit ∧ l.count '.' ≤ 1 then
    let ip := l.takeWhile (fun c => c ≠ '.')
    let fp := (l.dropWhile (fun c => c ≠ '.')).drop 1
    .ok ((digitsToNat ip : ℚ) + (digitsToNat fp : ℚ) / powq 10 fp.length)
  else .error ()

/-- There is a word boundary (\b) between the end of a word and this suffix. -/
def wordBoundaryAfter : List Char → Bool
  | [] => true
  | c :: _ => !isWordChar c

/-- Try to match one of the alternative words (regex alternation, in order) at
position c :: cs, requiring a word boundary after the match.  The caller
guarantees the word boundary before (previous character is not a word
character).  Returns the remainder of the list after the matched word. -/
def matchWordAlt (c : Char) (cs : List Char) : List (List Char) → Option (List Char)
  | [] => none
  | [] :: alts => matchWordAlt c cs alts
  | (a0 :: a) :: alts =>
    if a0 = c && a.isPrefixOf cs && wordBoundaryAfter (cs.drop a.length) then
      some (cs.drop a.length)
    else matchWordAlt c cs alts

theorem matchWordAlt_le (c : Char) (cs : List Char) (alts : List (List Char))
    (r : List Char) (h : matchWordAlt c cs alts = some r) : r.length ≤ cs.length := by
  induction alts with
  | nil => simp [matchWordAlt] at h
  | cons a alts ih =>
    cases a with
    | nil => exact ih (by simp only [matchWordAlt] at h; exact h)
    | cons a0 atl =>
      rw [matchWordAlt] at h
      split at h
      · cases h
        simp [List.length_drop]
      · exact ih h

/-- Model of re.sub(r'\b(w1|w2|...)\b', '', l): scan left to right, removing
each bounded occurrence of one of the alternative words.  The Bool argument
records whether the previous character was a word character (no boundary).
Structural recursion on a fuel bound: every step consumes at least one
character, so fuel = length of the list always suffices. -/
def subWordsFuel (alts : List (List Char)) : ℕ → Bool → List Char → List Char
  | 0, _, l => l
  | _ + 1, _, [] => []
  | fuel + 1, prevWord, c :: cs =>
    match (if prevWord then none else matchWordAlt c cs alts) with
    | some rest => subWordsFuel alts fuel true rest
    | none => c :: subWordsFuel alts fuel (isWordChar c) cs

def subWords (alts : List (List Char)) (prevWord : Bool) (l : List Char) : List Char :=
  subWordsFuel alts l.length prevWord l

/-- Model of re.search(r'\b(w1|w2|...)\b', l) ≠ None. -/
def searchWord (alts : List (List Char)) : Bool → List Char → Bool
  | _, [] => false
  | prevWord, c :: cs =>
    if !prevWord && (matchWordAlt c cs alts).isSome then true
    else searchWord alts (isWordChar c) cs

/-- The suffix letter (k or m) followed by a word boundary. -/
def suffixBoundary (sfx : Char) : List Char → Bool
  | [] => false
  | c :: rest => c = sfx && wordBoundaryAfter rest

/-- Model of re.search(r'(\d+(?:\.\d+)?)S\b', l) for a suffix letter S
(leftmost match, greedy optional fraction group); returns group 1. -/
def numSuffixMatch (sfx : Char) : List Char → Option (List Char)
  | [] => none
  | c :: cs =>
    if c.isDigit then
      let d1 := c :: cs.takeWhile Char.isDigit
      let r1 := cs.dropWhile Char.isDigit
      match r1 with
      | '.' :: r2 =>
        let d2 := r2.takeWhile Char.isDigit
        let r3 := r2.dropWhile Char.isDigit
        if d2 ≠ [] ∧ suffixBoundary sfx r3 then some (d1 ++ '.' :: d2)
        else if suffixBoundary sfx r1 then some d1
        else numSuffixMatch sfx cs
      | _ =>
        if suffixBoundary sfx r1 then some d1
        else numSuffixMatch sfx cs
    else numSuffixMatch sfx cs

/-- Alternatives of re.sub(r'\b(dollars?|bucks?|down|payment)\b', '', value),
expanded in the backtracking order of the Python regex engine. -/
def currencyWordAlts : List (List Char) :=
  [chars "dollars", chars "dollar", chars "bucks", chars "buck", chars "down", chars "payment"]

/-- Alternatives of \b(k|thousand|grand)\b. -/
def kWordAlts : List (List Char) := [chars "k", chars "thousand", chars "grand"]

/-- Alternatives of \b(m|million|mil)\b. -/
def mWordAlts : List (List Char) := [chars "m", chars "million", chars "mil"]

/-- A value of Python type Union[str, int, float]: int and float collapse to
one numeric constructor. -/
inductive PyVal where
  | str (s : List Char)
  | num (q : ℚ)
  deriving DecidableEq

/-- Model of parse_currency_amount (source lines 35-85).  A ValueError
(raised explicitly, or by float() on a malformed numeric run) is .error (). -/
def parse_currency_amount : PyVal → Except Unit ℚ
  | .num q => .ok q
  | .str s0 =>
    -- value = value.strip().lower()
    let value := (stripWs s0).map pyToLower
    -- percentage inputs win over everything else (lines 54-56)
    if value.contains '%' then
      (match findRuns value with
       | [] => pyFloat (chars "0")
       | num :: _ => pyFloat num).map (fun n => n / 100)
    else
      -- re.sub(r'[$,]', '', value)
      let value := value.filter (fun c => !(c = '$' || c = ','))
      -- re.sub(r'\b(dollars?|bucks?|down|payment)\b', '', value)
      let value := subWords currencyWordAlts false value
      -- shorthand words k/thousand/grand then m/million/mil (lines 63-69)
      let multAndValue :=
        if searchWord kWordAlts false value then ((1000 : ℚ), subWords kWordAlts false value)
        else if searchWord mWordAlts false value then ((1000000 : ℚ), subWords mWordAlts false value)
        else ((1 : ℚ), value)
      let multiplier := multAndValue.1
      let value := multAndValue.2
      -- suffixes glued to the number: "20k", "1.5m" (lines 72-78)
      match numSuffixMatch 'k' value with
      | some g => (pyFloat g).map (fun n => n * 1000)
      | none =>
        match numSuffixMatch 'm' value with
        | some g => (pyFloat g).map (fun n => n * 1000000)
        | none =>
          -- final numeric extraction (lines 81-85)
          match findRuns (stripWs value) with
          | [] => .error ()
          | num :: _ => (pyFloat num).map (fun n => n * multiplier)

/-! ## Configuration tables (source lines 10-32) -/

/-- Conforming limits for 1-4 units (source line 11). -/
def CONVENTIONAL_LOAN_LIMITS : List ℚ := [806500, 1032650, 1248150, 1551250]

/-- FHA limits for 1-4 units (source line 12). -/
def FHA_LOAN_LIMITS : List ℚ := [629050, 805300, 973400, 1209750]

/-- Loan type enumeration (source lines 172-176). -/
inductive LoanType where
  | conventional
  | fha
  | va
  | jumbo
  deriving DecidableEq

/-- LOAN_LIMITS dict (source lines 14-19).  The source maps jumbo and va to
[inf]*4; those entries are only ever indexed behind a guard restricting the
loan type to conventional/fha, so they are modelled as an empty table. -/
def LOAN_LIMITS : LoanType → List ℚ
  | .conventional => CONVENTIONAL_LOAN_LIMITS
  | .fha => FHA_LOAN_LIMITS
  | .va => []
  | .jumbo => []

/-- One row of the VA funding fee table. -/
structure VAFeeRow where
  no_down : ℚ
  five_percent_down : ℚ
  ten_percent_down : ℚ

/-- VA_FUNDING_FEES["first_time"] (source lines 22-26). -/
def VA_FUNDING_FEES_first_time : VAFeeRow :=
  { no_down := 0.0215, five_percent_down := 0.015, ten_percent_down := 0.0125 }

/-- VA_FUNDING_FEES["subsequent"] (source lines 27-31). -/
def VA_FUNDING_FEES_subsequent : VAFeeRow :=
  { no_down := 0.033, five_percent_down := 0.0150, ten_percent_down := 0.0125 }

/-- Second lien payment type (source lines 179-182). -/
inductive SecondLienType where
  | fully_amortized
  | interest_only
  deriving DecidableEq

/-! ## calculate_va_funding_fee (source lines 231-259) -/

def calculate_va_funding_fee (loan_amount down_payment : ℚ)
    (is_first_time is_exempt : Bool) : ℚ :=
  if is_exempt then 0
  else
    let home_price := loan_amount + down_payment
    let down_payment_percent := if home_price > 0 then down_payment / home_price else 0
    let fee_table := if is_first_time then VA_FUNDING_FEES_first_time else VA_FUNDING_FEES_subsequent
    let fee_rate :=
      if down_payment_percent ≥ 0.10 then fee_table.ten_percent_down
      else if down_payment_percent ≥ 0.05 then fee_table.five_percent_down
      else fee_table.no_down
    loan_amount * fee_rate

/-! ## Mortgage insurance rate tables (source lines 281-321) -/

def get_conventional_mi_rate (ltv : ℚ) : ℚ :=
  if ltv ≤ 0.80 then 0
  else if ltv ≤ 0.85 then 0.0012
  else if ltv ≤ 0.90 then 0.0021
  else if ltv ≤ 0.95 then 0.0030
  else if ltv ≤ 0.97 then 0.0043
  else 0.0050

def get_fha_mi_rate (ltv : ℚ) (term : ℕ) (loan_amount : ℚ) : ℚ :=
  if term > 15 then
    if loan_amount ≤ 726200 then
      if ltv ≤ 0.95 then 0.005 else 0.0055
    else
      if ltv ≤ 0.95 then 0.007 else 0.0075
  else
    if loan_amount ≤ 726200 then
      if ltv ≤ 0.90 then 0.0015 else 0.004
    else
      if ltv ≤ 0.78 then 0.0015
      else if ltv ≤ 0.90 then 0.004
      else 0.0065

/-! ## calculate_monthly_premium (source lines 324-397): Encompass-style FHA
monthly MI from a 12-month average-balance simulation. -/

/-- The p_i and upfront arguments are unused, as in the source.  The
try/except of the source can only fire through a division by zero, i.e. when
term_years = 0; that case takes the fallback branch (source line 397). -/
def calculate_monthly_premium (interest orig_mtg p_i upfront mip : ℚ)
    (term_years : ℕ) : ℚ :=
  let monthly_rate := interest / 100 / 12
  let term_months := term_years * 12
  if term_months = 0 then pyRound (orig_mtg * mip / 12) 2
  else
    let payment :=
      if monthly_rate > 0 then
        orig_mtg * (monthly_rate * powq (1 + monthly_rate) term_months)
          / (powq (1 + monthly_rate) term_months - 1)
      else orig_mtg / (term_months : ℚ)
    let payment := pyRound payment 2
    let start := pyRound orig_mtg 2
    -- months 1-11: total_balance starts at the month-0 balance
    let sim := (List.range 11).foldl
      (fun (acc : ℚ × ℚ) _ =>
        let balance := acc.2
        let interest_payment := pyRound (balance * monthly_rate) 2
        let principal_payment := pyRound (payment - interest_payment) 2
        let balance2 := pyRound (balance - principal_payment) 2
        (acc.1 + balance2, balance2))
      (start, start)
    let avg_balance := pyRound (sim.1 / 12) 2
    pyRound (avg_balance * mip / 12) 2

/-! ## calculate_monthly_pi_payment (source lines 400-421) -/

/-- Standard amortization formula.  In Python a term of 0 raises
ZeroDivisionError; here division by zero yields 0 (never reached by the
claims, which use positive terms). -/
def calculate_monthly_pi_payment (loan_amount annual_rate : ℚ) (term_years : ℕ) : ℚ :=
  let monthly_rate := annual_rate / 12 / 100
  let total_payments := term_years * 12
  if monthly_rate > 0 then
    loan_amount * (monthly_rate * powq (1 + monthly_rate) total_payments)
      / (powq (1 + monthly_rate) total_payments - 1)
  else loan_amount / (total_payments : ℚ)

/-! ## calculate_buydown_scenarios (source lines 424-525) -/

structure BuydownYear where
  year : ℕ
  rate : ℚ
  payment : ℚ
  monthly_savings : ℚ
  annual_subsidy : ℚ

structure BuydownVariant where
  years : List BuydownYear
  base_payment : ℚ
  base_rate : ℚ
  total_subsidy : ℚ

structure StandardScenario where
  payment : ℚ
  rate : ℚ

structure BuydownScenarios where
  standard : StandardScenario
  buydown_3_1 : BuydownVariant
  buydown_2_1 : BuydownVariant
  buydown_1_1 : BuydownVariant

/-- Body of the per-year loop that all three buydown variants repeat
(source lines 450-463, 476-489, 502-515). -/
def buydownYears (loan_amount base_rate : ℚ) (term_years : ℕ) (base_payment : ℚ) :
    List (ℕ × ℚ) → List BuydownYear
  | [] => []
  | (year, rate_reduction) :: rest =>
    let reduced_rate := base_rate - rate_reduction
    let reduced_payment := calculate_monthly_pi_payment loan_amount reduced_rate term_years
    let monthly_savings := base_payment - reduced_payment
    let annual_subsidy := monthly_savings * 12
    { year := year, rate := reduced_rate, payment := reduced_payment,
      monthly_savings := monthly_savings, annual_subsidy := annual_subsidy }
      :: buydownYears loan_amount base_rate term_years base_payment rest

/-- The running total_subsidy accumulated by the same loop. -/
def buydownTotal (ys : List BuydownYear) : ℚ :=
  ys.foldl (fun acc y => acc + y.annual_subsidy) 0

def calculate_buydown_scenarios (loan_amount base_rate : ℚ) (term_years : ℕ) :
    BuydownScenarios :=
  let base_payment := calculate_monthly_pi_payment loan_amount base_rate term_years
  let ys31 := buydownYears loan_amount base_rate term_years base_payment
    [(1, 3.0), (2, 2.0), (3, 1.0)]
  let ys21 := buydownYears loan_amount base_rate term_years base_payment
    [(1, 2.0), (2, 1.0)]
  let ys11 := buydownYears loan_amount base_rate term_years base_payment
    [(1, 1.0)]
  { standard := { payment := base_payment, rate := base_rate },
    buydown_3_1 := { years := ys31, base_payment := base_payment,
                     base_rate := base_rate, total_subsidy := buydownTotal ys31 },
    buydown_2_1 := { years := ys21, base_payment := base_payment,
                     base_rate := base_rate, total_subsidy := buydownTotal ys21 },
    buydown_1_1 := { years := ys11, base_payment := base_payment,
                     base_rate := base_rate, total_subsidy := buydownTotal ys11 } }

/-! ## calculate_second_lien_payment (source lines 598-628) -/

def calculate_second_lien_payment (second_lien_amount second_lien_rate : ℚ)
    (second_lien_type : SecondLienType) (second_lien_term_years : ℕ) : ℚ :=
  match second_lien_type with
  | .interest_only => (second_lien_amount * second_lien_rate / 100) / 12
  | .fully_amortized =>
    let monthly_rate := second_lien_rate / 12 / 100
    let total_payments := second_lien_term_years * 12
    if monthly_rate > 0 then
      second_lien_amount * (monthly_rate * powq (1 + monthly_rate) total_payments)
        / (powq (1 + monthly_rate) total_payments - 1)
    else second_lien_amount / (total_payments : ℚ)

/-! ## fetch_freddie_mac_rate (source lines 88-169)

parse_freddie_mac_rates performs an HTTP GET and scrapes the page; its outcome
is modelled as an explicit parameter: .ok carries the dict it returns (both
keys "30" and "15" are always present), .error models any exception raised
inside the try block (network error, parse failure, malformed page). -/

structure FreddieRates where
  y30 : ℚ
  y15 : ℚ

/-- fallback_rates dict plus its .get(loan_type, 7.5) default (lines 162-169). -/
def fallback_rates (loan_type : String) : ℚ :=
  if loan_type = "conventional" then 7.5
  else if loan_type = "fha" then 7.5
  else if loan_type = "va" then 7.5
  else if loan_type = "jumbo" then 7.5
  else 7.5

def fetch_freddie_mac_rate (pmms : Except Unit FreddieRates)
    (loan_type : String) (loan_term_years : ℤ) : ℚ :=
  match pmms with
  | .ok years_to_rate =>
    -- terms < 20 use the 15-year rate, others the 30-year rate (lines 142-145);
    -- the dict always contains both keys, so the None branch of line 150 is dead
    let latest_rate := if loan_term_years < 20 then years_to_rate.y15 else years_to_rate.y30
    latest_rate + 0.5
  | .error _ => fallback_rates loan_type

/-! ## get_rate (source lines 631-1053)

The function is modelled in the stages of its body:
parseInputs (682-716), validate_normalize_loan_type (262-278, 721-726),
normalizeSecondLienType (728-743), resolveStructure (745-818, including
ltv_policy for 811-818), finishCalc (819-905).  The XML formatting
(906-1053) has no numeric logic; every quantity it prints is a field of
RateResult.  The external Freddie Mac fetch of line 822 is the fetched_rate
parameter of get_rate. -/

/-- The loan_type parameter of get_rate: Union[LoanType, str]. -/
inductive LoanTypeInput where
  | enum (lt : LoanType)
  | str (s : List Char)

/-- The second_lien_type parameter of get_rate: Union[SecondLienType, str]. -/
inductive SLTInput where
  | enum (t : SecondLienType)
  | str (s : List Char)

/-- The keyword arguments of get_rate with their Python default values
(source lines 631-651).  occupancy and property_type only affect display
text and disclaimers, never a computed quantity, and are omitted. -/
structure GetRateArgs where
  home_price : Option PyVal := none
  loan_type : LoanTypeInput := .enum .conventional
  units : ℤ := 1
  down_payment : Option PyVal := none
  annual_interest_rate : Option ℚ := none
  loan_term_years : ℕ := 30
  loan_amount : Option PyVal := none
  annual_property_tax : Option PyVal := none
  annual_home_insurance : Option PyVal := none
  fico_score : ℤ := 760
  va_first_time : Bool := true
  va_exempt : Bool := false
  ltv : Option PyVal := none
  homeowners_association_fee : ℚ := 0
  second_lien_amount : Option PyVal := none
  second_lien_type : Option SLTInput := some (.enum .interest_only)
  second_lien_rate : Option ℚ := none
  second_lien_term_years : ℕ := 30

/-- Every early return of get_rate, plus the uncaught IndexError of the
LOAN_LIMITS[...][units - 1] lookup.  Message constructors correspond to the
returned error strings; indexError is an exception, not a returned message. -/
inductive GRErr where
  | invalidInput                               -- line 716
  | missingPriceAndAmount                      -- line 719
  | invalidLoanType                            -- line 726
  | invalidSecondLienType                      -- line 739
  | negativeDownPayment                        -- line 788
  | exceedsLoanLimit (loan_amount limit : ℚ)   -- line 797
  | cltvTooHigh (cltv : ℚ)                     -- line 809
  | ltvExceedsConventionalMax (ltv : ℚ)        -- line 814, recommends FHA
  | ltvExceedsFhaMax (ltv : ℚ)                 -- line 818
  | indexError                                 -- uncaught IndexError, lines 791/796
  deriving DecidableEq

/-- The parsed numeric inputs produced by the try block of lines 682-716. -/
structure Parsed where
  home_price : Option ℚ
  loan_amount : Option ℚ
  down_payment : Option ℚ
  second_lien_amount : Option ℚ
  second_lien_is_percentage : Bool
  annual_property_tax : Option ℚ
  annual_home_insurance : Option ℚ
  ltv : Option ℚ

/-- parse_currency_amount on an optional argument, with the ValueError
converted to the "Invalid input format" return of line 716. -/
def optParse : Option PyVal → Except GRErr (Option ℚ)
  | none => .ok none
  | some v =>
    match parse_currency_amount v with
    | .error _ => .error .invalidInput
    | .ok q => .ok (some q)

/-- Whether the Python value is a str containing a percent sign
(lines 691, 701). -/
def pvIsPctStr : PyVal → Bool
  | .str s => s.contains '%'
  | .num _ => false

/-- The try block of lines 682-716, in source order. -/
def parseInputs (a : GetRateArgs) : Except GRErr Parsed :=
  match optParse a.home_price with
  | .error e => .error e
  | .ok home_price =>
  match optParse a.loan_amount with
  | .error e => .error e
  | .ok loan_amount =>
  -- down payment: possibly a percentage of the (already parsed) home price
  match (match a.down_payment with
         | none => Except.ok (none : Option ℚ)
         | some v =>
           match parse_currency_amount v with
           | .error _ => .error GRErr.invalidInput
           | .ok d =>
             if pvIsPctStr v then
               match home_price with
               | some hp => .ok (some (hp * d))
               | none => .ok (some d)
             else .ok (some d)) with
  | .error e => .error e
  | .ok down_payment =>
  -- second lien amount: possibly a percentage; the flag is cleared once converted
  match (match a.second_lien_amount with
         | none => Except.ok ((none : Option ℚ), false)
         | some v =>
           match parse_currency_amount v with
           | .error _ => .error GRErr.invalidInput
           | .ok s =>
             if pvIsPctStr v then
               match home_price with
               | some hp => .ok (some (hp * s), false)
               | none => .ok (some s, true)
             else .ok (some s, false)) with
  | .error e => .error e
  | .ok sl =>
  match optParse a.annual_property_tax with
  | .error e => .error e
  | .ok annual_property_tax =>
  match optParse a.annual_home_insurance with
  | .error e => .error e
  | .ok annual_home_insurance =>
  -- ltv: parse_currency_amount(ltv) if str else float(ltv) (line 714)
  match (match a.ltv with
         | none => Except.ok (none : Option ℚ)
         | some (.str s) =>
           match parse_currency_amount (.str s) with
           | .error _ => .error GRErr.invalidInput
           | .ok q => .ok (some q)
         | some (.num q) => .ok (some q)) with
  | .error e => .error e
  | .ok ltv =>
    .ok { home_price := home_price, loan_amount := loan_amount,
          down_payment := down_payment, second_lien_amount := sl.1,
          second_lien_is_percentage := sl.2,
          annual_property_tax := annual_property_tax,
          annual_home_insurance := annual_home_insurance, ltv := ltv }

/-- validate_normalize_loan_type (source lines 262-278) wrapped in the
try/except of lines 721-726.  The final fallback LoanType(loan_type) of the
source applies the enum constructor to the raw (unlowered) string; every
string it would accept is already matched by the alias table, so a fall
through is a ValueError, i.e. the "Invalid loan type" return. -/
def validate_normalize_loan_type : LoanTypeInput → Except GRErr LoanType
  | .enum lt => .ok lt
  | .str s =>
    let l := stripWs (s.map pyToLower)
    if l = chars "conventional" ∨ l = chars "conv" ∨ l = chars "conforming" then .ok .conventional
    else if l = chars "fha" then .ok .fha
    else if l = chars "va" ∨ l = chars "veteran" ∨ l = chars "veterans" then .ok .va
    else if l = chars "jumbo" then .ok .jumbo
    else .error .invalidLoanType

/-- Second-lien-type normalization (source lines 728-743), including the
default to interest_only when a second lien amount is present (742-743).
The final fallback SecondLienType(lowered) only accepts the two member values,
both already in the alias lists, so a fall through is the error of line 739. -/
def normalizeSecondLienType (t : Option SLTInput) (second_lien_amount : Option ℚ) :
    Except GRErr (Option SecondLienType) :=
  match t with
  | none => .ok (if second_lien_amount.isSome then some .interest_only else none)
  | some (.enum t) => .ok (some t)
  | some (.str s) =>
    let l := stripWs (s.map pyToLower)
    if l = chars "fully_amortized" ∨ l = chars "fully amortized" ∨
       l = chars "amortized" ∨ l = chars "amortizing" then .ok (some .fully_amortized)
    else if l = chars "interest_only" ∨ l = chars "interest only" ∨ l = chars "io" then
      .ok (some .interest_only)
    else .error .invalidSecondLienType

/-- The LTV policy step of get_rate (source lines 811-818): Conventional
above 95% (rounded) LTV either downgrades to FHA (≤ 96.5%) or is a hard
error recommending FHA; FHA above 96.5% is a hard error. -/
def ltv_policy (loan_type : LoanType) (calculated_ltv : ℚ) : Except GRErr LoanType :=
  if loan_type = .conventional ∧ calculated_ltv > 0.95 then
    if calculated_ltv > 0.965 then .error (.ltvExceedsConventionalMax calculated_ltv)
    else .ok .fha
  else if loan_type = .fha ∧ calculated_ltv > 0.965 then
    .error (.ltvExceedsFhaMax calculated_ltv)
  else .ok loan_type

/-- Everything the structuring phase (lines 745-818) resolves. -/
structure Resolved where
  home_price : ℚ
  down_payment : ℚ
  loan_amount : ℚ
  second_lien_amount : Option ℚ
  loan_type : LoanType
  calculated_ltv : ℚ
  calculated_cltv : ℚ

/-- LOAN_LIMITS[...][units - 1] with the Python subscript semantics; an
out-of-range index is the uncaught IndexError. -/
def limitLookup (l : List ℚ) (i : ℤ) : Except GRErr ℚ :=
  match pyListGet l i with
  | .ok q => .ok q
  | .error _ => .error .indexError

/-- The structuring phase of get_rate (source lines 745-818), in source
order: home price defaulting, explicit-LTV handling, down payment defaulting,
loan amount, negative-down-payment check, conventional→jumbo escalation,
conforming limit validation, LTV/CLTV computation and gating. -/
def resolveStructure (p : Parsed) (lt0 : LoanType) (units : ℤ) : Except GRErr Resolved :=
  -- lines 745-752: determine home price if not provided.  When home_price is
  -- none the caller has already ensured loan_amount is present (line 718).
  let dp0 : Option ℚ :=
    match p.home_price, p.down_payment with
    | none, none => some (p.loan_amount.getD 0 * 0.25)
    | _, d => d
  let home_price : ℚ :=
    match p.home_price with
    | some hp => hp
    | none => p.loan_amount.getD 0 + dp0.getD 0
  let second_lien_amount : Option ℚ :=
    match p.home_price, p.second_lien_amount with
    | none, some sl => if p.second_lien_is_percentage then some (home_price * sl) else some sl
    | _, sl => sl
  -- lines 754-763: explicit LTV input overrides loan amount and down payment
  let lad : Option ℚ × Option ℚ :=
    match p.ltv with
    | some ltvIn =>
      let ltv := if ltvIn > 1 then ltvIn / 100 else ltvIn
      let la := home_price * ltv
      let dp :=
        match second_lien_amount with
        | some sl => home_price - la - sl
        | none => home_price - la
      (some la, some dp)
    | none => (p.loan_amount, dp0)
  -- lines 765-776: loan-type specific down payment defaults
  let down_payment : ℚ :=
    match lad.2 with
    | some d => d
    | none =>
      let d :=
        if lt0 = .fha then home_price * 0.035
        else if lt0 = .va then 0
        else home_price * 0.20
      match second_lien_amount with
      | some sl => max 0 (d - sl)
      | none => d
  -- lines 778-784: loan amount
  let loan_amount : ℚ :=
    match lad.1 with
    | some la => la
    | none =>
      match second_lien_amount with
      | some sl => home_price - down_payment - sl
      | none => home_price - down_payment
  -- lines 786-788
  if down_payment < 0 then .error .negativeDownPayment
  else
    -- lines 790-792: conventional → jumbo escalation (the subscript is only
    -- evaluated when the loan type is conventional, by short-circuiting)
    match ((if lt0 = .conventional then
             match limitLookup CONVENTIONAL_LOAN_LIMITS (units - 1) with
             | .error e => .error e
             | .ok lim => .ok (if loan_amount > lim then LoanType.jumbo else lt0)
            else .ok lt0) : Except GRErr LoanType) with
    | .error e => .error e
    | .ok lt1 =>
    -- lines 794-797: conforming limit validation for conventional/FHA only
    match ((if lt1 = .conventional ∨ lt1 = .fha then
             match limitLookup (LOAN_LIMITS lt1) (units - 1) with
             | .error e => .error e
             | .ok lim =>
               if loan_amount > lim then .error (.exceedsLoanLimit loan_amount lim)
               else .ok ()
            else .ok ()) : Except GRErr Unit) with
    | .error e => .error e
    | .ok _ =>
    -- lines 799-805: LTV and CLTV, rounded to 3 decimals
    let calculated_ltv := if home_price > 0 then pyRound (loan_amount / home_price) 3 else 0
    let calculated_cltv :=
      match second_lien_amount with
      | some sl =>
        if sl > 0 then
          (if home_price > 0 then pyRound ((loan_amount + sl) / home_price) 3 else 0)
        else calculated_ltv
      | none => calculated_ltv
    -- lines 807-809
    if calculated_cltv > 1.05 then .error (.cltvTooHigh calculated_cltv)
    else
      -- lines 811-818
      match ltv_policy lt1 calculated_ltv with
      | .error e => .error e
      | .ok lt2 =>
        .ok { home_price := home_price, down_payment := down_payment,
              loan_amount := loan_amount, second_lien_amount := second_lien_amount,
              loan_type := lt2, calculated_ltv := calculated_ltv,
              calculated_cltv := calculated_cltv }

deriving instance DecidableEq for Except

/-- Every numeric quantity the report of lines 906-1053 prints. -/
structure RateResult where
  loan_type : LoanType
  home_price : ℚ
  down_payment : ℚ
  base_loan_amount : ℚ
  loan_amount : ℚ
  calculated_ltv : ℚ
  calculated_cltv : ℚ
  annual_interest_rate : ℚ
  fha_upfront_mip : ℚ
  va_funding_fee : ℚ
  annual_property_tax : ℚ
  annual_home_insurance : ℚ
  monthly_principal_interest : ℚ
  mi_rate : ℚ
  monthly_mi : ℚ
  monthly_second_lien_payment : ℚ
  monthly_tax : ℚ
  monthly_insurance : ℚ
  total_monthly_payment : ℚ
  deriving DecidableEq

/-- The cost-calculation phase of get_rate (source lines 819-905).  No early
return exists in this region; it always produces a result.  fetched_rate is
the value fetch_freddie_mac_rate would return (line 822). -/
def finishCalc (fetched_rate : ℚ) (a : GetRateArgs) (p : Parsed) (st : Resolved)
    (slt : Option SecondLienType) : RateResult :=
  -- lines 820-822
  let annual_interest_rate :=
    match a.annual_interest_rate with
    | some r => r
    | none => fetched_rate
  -- lines 824-827: second lien rate default (first lien rate + 1.0)
  let second_lien_rate : Option ℚ :=
    match st.second_lien_amount with
    | some sl =>
      if sl > 0 then
        match a.second_lien_rate with
        | some r => some r
        | none => some (annual_interest_rate + 1.0)
      else a.second_lien_rate
    | none => a.second_lien_rate
  -- lines 829-834: FHA upfront MIP financed into the loan amount
  let base_loan_amount := st.loan_amount
  let fha_upfront_mip := if st.loan_type = .fha then base_loan_amount * 0.0175 else 0
  let loan_amount :=
    if st.loan_type = .fha then base_loan_amount + fha_upfront_mip else base_loan_amount
  -- lines 836-840: VA funding fee financed into the loan amount
  let va_funding_fee :=
    if st.loan_type = .va then
      calculate_va_funding_fee loan_amount st.down_payment a.va_first_time a.va_exempt
    else 0
  let loan_amount := if st.loan_type = .va then loan_amount + va_funding_fee else loan_amount
  -- lines 842-846: default property tax (0.65%/yr) and insurance (0.2%/yr)
  let annual_property_tax :=
    match p.annual_property_tax with
    | some t => t
    | none => st.home_price * 0.0065
  let annual_home_insurance :=
    match p.annual_home_insurance with
    | some i => i
    | none => st.home_price * 0.002
  -- lines 848-860: first lien monthly principal & interest
  let monthly_interest_rate := annual_interest_rate / 12 / 100
  let total_payments := a.loan_term_years * 12
  let monthly_principal_interest :=
    if monthly_interest_rate > 0 then
      loan_amount * (monthly_interest_rate * powq (1 + monthly_interest_rate) total_payments)
        / (powq (1 + monthly_interest_rate) total_payments - 1)
    else loan_amount / (total_payments : ℚ)
  -- lines 862-878: mortgage insurance
  let mi_rate :=
    if st.loan_type = .conventional then
      if st.calculated_ltv > 0.80 then get_conventional_mi_rate st.calculated_ltv else 0
    else if st.loan_type = .fha then
      get_fha_mi_rate st.calculated_ltv a.loan_term_years base_loan_amount
    else 0
  let monthly_mi :=
    if st.loan_type = .conventional then
      if st.calculated_ltv > 0.80 then loan_amount * mi_rate / 12 else 0
    else if st.loan_type = .fha then
      calculate_monthly_premium annual_interest_rate base_loan_amount
        monthly_principal_interest 0.0175 mi_rate a.loan_term_years
    else 0
  -- lines 880-888: second lien payment
  let monthly_second_lien_payment :=
    match st.second_lien_amount with
    | some sl =>
      if sl > 0 then
        calculate_second_lien_payment sl (second_lien_rate.getD 0)
          (slt.getD .interest_only) a.second_lien_term_years
      else 0
    | none => 0
  -- lines 890-902
  let monthly_tax := annual_property_tax / 12
  let monthly_insurance := annual_home_insurance / 12
  let total_monthly_payment :=
    monthly_principal_interest + monthly_second_lien_payment + monthly_tax +
      monthly_insurance + monthly_mi + a.homeowners_association_fee
  { loan_type := st.loan_type, home_price := st.home_price,
    down_payment := st.down_payment, base_loan_amount := base_loan_amount,
    loan_amount := loan_amount, calculated_ltv := st.calculated_ltv,
    calculated_cltv := st.calculated_cltv,
    annual_interest_rate := annual_interest_rate,
    fha_upfront_mip := fha_upfront_mip, va_funding_fee := va_funding_fee,
    annual_property_tax := annual_property_tax,
    annual_home_insurance := annual_home_insurance,
    monthly_principal_interest := monthly_principal_interest,
    mi_rate := mi_rate, monthly_mi := monthly_mi,
    monthly_second_lien_payment := monthly_second_lien_payment,
    monthly_tax := monthly_tax, monthly_insurance := monthly_insurance,
    total_monthly_payment := total_monthly_payment }

/-- get_rate (source lines 631-1053).  fetched_rate models the result of the
external Freddie Mac fetch, consulted only when annual_interest_rate is not
given. -/
def get_rate (fetched_rate : ℚ) (a : GetRateArgs) : Except GRErr RateResult :=
  match parseInputs a with
  | .error e => .error e
  | .ok p =>
    -- line 718-719
    if p.home_price = none ∧ p.loan_amount = none then .error .missingPriceAndAmount
    else
      match validate_normalize_loan_type a.loan_type with
      | .error e => .error e
      | .ok lt =>
        match normalizeSecondLienType a.second_lien_type p.second_lien_amount with
        | .error e => .error e
        | .ok slt =>
          match resolveStructure p lt a.units with
          | .error e => .error e
          | .ok st => .ok (finishCalc fetched_rate a p st slt)

/-! ## A decidable "succeeds and the result satisfies P" predicate -/

def okAnd {ε α : Type} (o : Except ε α) (P : α → Prop) : Prop :=
  match o with
  | .ok a => P a
  | .error _ => False

instance instDecidableOkAnd {ε α : Type} (o : Except ε α) (P : α → Prop)
    [DecidablePred P] : Decidable (okAnd o P) :=
  match o with
  | .ok a => inferInstanceAs (Decidable (P a))
  | .error _ => isFalse (fun h => h)

theorem okAnd_iff {ε α : Type} (o : Except ε α) (P : α → Prop) :
    okAnd o P ↔ ∃ a, o = .ok a ∧ P a := by
  cases o with
  | error e => simp [okAnd]
  | ok a => simp [okAnd]

/-! ## Helper lemmas about get_rate -/

/-- The fetched rate is only consulted when annual_interest_rate is absent. -/
theorem finishCalc_fetch_irrel (f g r : ℚ) (a : GetRateArgs) (p : Parsed)
    (st : Resolved) (slt : Option SecondLienType)
    (h : a.annual_interest_rate = some r) :
    finishCalc f a p st slt = finishCalc g a p st slt := by
  simp only [finishCalc, h]

theorem get_rate_fetch_irrel (f g r : ℚ) (a : GetRateArgs)
    (h : a.annual_interest_rate = some r) : get_rate f a = get_rate g a := by
  unfold get_rate
  cases hp : parseInputs a with
  | error e => rfl
  | ok p =>
    dsimp only
    by_cases hc : p.home_price = none ∧ p.loan_amount = none
    · rw [if_pos hc, if_pos hc]
    · rw [if_neg hc, if_neg hc]
      cases hlt : validate_normalize_loan_type a.loan_type with
      | error e => simp
      | ok lt =>
        dsimp only
        cases hs : normalizeSecondLienType a.second_lien_type p.second_lien_amount with
        | error e => simp
        | ok slt =>
          dsimp only
          cases hr : resolveStructure p lt a.units with
          | error e => simp
          | ok st =>
            dsimp only
            exact congrArg Except.ok (finishCalc_fetch_irrel f g r a p st slt h)

theorem finishCalc_loan_type (f : ℚ) (a : GetRateArgs) (p : Parsed)
    (st : Resolved) (slt : Option SecondLienType) :
    (finishCalc f a p st slt).loan_type = st.loan_type := rfl

theorem finishCalc_ltv (f : ℚ) (a : GetRateArgs) (p : Parsed)
    (st : Resolved) (slt : Option SecondLienType) :
    (finishCalc f a p st slt).calculated_ltv = st.calculated_ltv := rfl

/-- For a conventional result the financed fees vanish and the first lien
amount is the structured loan amount. -/
theorem finishCalc_conv_loan_amount (f : ℚ) (a : GetRateArgs) (p : Parsed)
    (st : Resolved) (slt : Option SecondLienType)
    (hst : st.loan_type = .conventional) :
    (finishCalc f a p st slt).loan_amount = st.loan_amount := by
  simp [finishCalc, hst]

/-- The monthly MI computed for a conventional result (source lines 862-872). -/
theorem finishCalc_conv_mi (f : ℚ) (a : GetRateArgs) (p : Parsed)
    (st : Resolved) (slt : Option SecondLienType)
    (hst : st.loan_type = .conventional) :
    (finishCalc f a p st slt).monthly_mi =
      if st.calculated_ltv > 0.80 then
        st.loan_amount * get_conventional_mi_rate st.calculated_ltv / 12
      else 0 := by
  simp only [finishCalc, hst]
  by_cases hl : (0.80 : ℚ) < st.calculated_ltv <;> simp [hl]

/-- A lookup index at or past the table length raises IndexError. -/
theorem limitLookup_out (l : List ℚ) (i : ℤ) (h : (l.length : ℤ) ≤ i) :
    limitLookup l i = .error .indexError := by
  unfold limitLookup pyListGet
  rw [if_neg (by omega), if_neg (by omega)]

/-! ## Claim theorems -/

/-- The end-to-end scenario of C1, with the down payment as the string
"20%". -/
def c1ArgsPct : GetRateArgs :=
  { home_price := some (.num 500000), loan_type := .str (chars "conventional"),
    down_payment := some (.str (chars "20%")), annual_interest_rate := some 7,
    loan_term_years := 30, fico_score := 760 }

/-- The same scenario with the down payment as the number 100000. -/
def c1ArgsAmt : GetRateArgs := { c1ArgsPct with down_payment := some (.num 100000) }

/-- C1: get_rate on home price $500,000, 20% down (given as "20%" or,
equivalently, as 100000), Conventional, FICO 760, 30-year term, explicit rate
7.0% succeeds with first-lien loan amount 400000, first-lien LTV exactly 80%,
zero monthly mortgage insurance, monthly P&I within $0.01 of $2,661.21,
defaulted monthly property tax within $0.01 of $270.83, defaulted monthly
insurance within $0.01 of $83.33, and total monthly payment within $0.01 of
$3,015.37 — for every value of the (unused) fetched rate. -/
theorem claim_C1_end_to_end (fetched_rate : ℚ) :
    okAnd (get_rate fetched_rate c1ArgsPct) (fun r =>
      r.loan_amount = 400000 ∧
      r.calculated_ltv = 0.80 ∧
      r.monthly_mi = 0 ∧
      r.monthly_principal_interest - 2661.21 ≤ 0.01 ∧
      2661.21 - r.monthly_principal_interest ≤ 0.01 ∧
      r.monthly_tax - 270.83 ≤ 0.01 ∧ 270.83 - r.monthly_tax ≤ 0.01 ∧
      r.monthly_insurance - 83.33 ≤ 0.01 ∧ 83.33 - r.monthly_insurance ≤ 0.01 ∧
      r.total_monthly_payment - 3015.37 ≤ 0.01 ∧
      3015.37 - r.total_monthly_payment ≤ 0.01) ∧
    get_rate fetched_rate c1ArgsPct = get_rate fetched_rate c1ArgsAmt := by
  have h1 : get_rate fetched_rate c1ArgsPct = get_rate 0 c1ArgsPct :=
    get_rate_fetch_irrel fetched_rate 0 7 c1ArgsPct rfl
  have h2 : get_rate fetched_rate c1ArgsAmt = get_rate 0 c1ArgsAmt :=
    get_rate_fetch_irrel fetched_rate 0 7 c1ArgsAmt rfl
  constructor
  · rw [h1]
    decide!
  · rw [h1, h2]
    decide!

/-- The C9 scenario: a Conventional request at $700,000 with 4% down, whose
first lien of $672,000 is within the Conventional limit but above the FHA
limit, and whose LTV of 96% triggers the downgrade to FHA. -/
def c9Args : GetRateArgs :=
  { home_price := some (.num 700000), down_payment := some (.num 28000),
    annual_interest_rate := some 7 }

/-- C9: the conforming-limit validation runs before the LTV-policy step and
uses the loan type of that earlier point: this Conventional request (units =
1) is within the Conventional conforming limit, its computed LTV of 96% lies
in (95%, 96.5%], and get_rate succeeds with final loan type FHA although the
base first-lien amount 672000 exceeds the 1-unit FHA conforming limit 629050
— the FHA limit is never re-checked after the downgrade. -/
theorem claim_C9_fha_limit_not_rechecked :
    okAnd (get_rate 7.5 c9Args) (fun r =>
      r.loan_type = .fha ∧
      r.base_loan_amount = 672000 ∧
      0.95 < r.calculated_ltv ∧ r.calculated_ltv ≤ 0.965) ∧
    (672000 : ℚ) ≤ CONVENTIONAL_LOAN_LIMITS.getD 0 0 ∧
    FHA_LOAN_LIMITS.getD 0 0 < (672000 : ℚ) := by
  refine ⟨by decide!, by decide!, by decide!⟩

/-- C4: in every successful get_rate calculation whose final loan type is
Conventional, the monthly mortgage insurance is zero whenever the first-lien
LTV is at most 80%, and whenever the LTV exceeds 80% it equals loan_amount
times the annualized step rate of the LTV (0.12% up to 85%, 0.21% up to 90%,
0.30% up to 95%, 0.43% up to 97%, else 0.50%) divided by 12. -/
theorem claim_C4_conventional_mi (fetched_rate : ℚ) (a : GetRateArgs)
    (res : RateResult) (h : get_rate fetched_rate a = .ok res)
    (hconv : res.loan_type = .conventional) :
    (res.calculated_ltv ≤ 0.80 → res.monthly_mi = 0) ∧
    (0.80 < res.calculated_ltv →
      res.monthly_mi = res.loan_amount *
        (if res.calculated_ltv ≤ 0.85 then 0.0012
         else if res.calculated_ltv ≤ 0.90 then 0.0021
         else if res.calculated_ltv ≤ 0.95 then 0.0030
         else if res.calculated_ltv ≤ 0.97 then 0.0043
         else 0.0050) / 12) := by
  unfold get_rate at h
  cases hp : parseInputs a with
  | error e =>
    rw [hp] at h
    simp at h
  | ok p =>
    rw [hp] at h
    dsimp only at h
    by_cases hc : p.home_price = none ∧ p.loan_amount = none
    · rw [if_pos hc] at h
      simp at h
    · rw [if_neg hc] at h
      cases hlt : validate_normalize_loan_type a.loan_type with
      | error e =>
        rw [hlt] at h
        simp at h
      | ok lt =>
        rw [hlt] at h
        dsimp only at h
        cases hslt : normalizeSecondLienType a.second_lien_type p.second_lien_amount with
        | error e =>
          rw [hslt] at h
          simp at h
        | ok slt =>
          rw [hslt] at h
          dsimp only at h
          cases hst : resolveStructure p lt a.units with
          | error e =>
            rw [hst] at h
            simp at h
          | ok st =>
            rw [hst] at h
            dsimp only at h
            injection h with h
            subst h
            have hty : st.loan_type = .conventional := hconv
            have hltv : (finishCalc fetched_rate a p st slt).calculated_ltv =
                st.calculated_ltv := finishCalc_ltv _ _ _ _ _
            have hla : (finishCalc fetched_rate a p st slt).loan_amount =
                st.loan_amount := finishCalc_conv_loan_amount _ _ _ _ _ hty
            have hmi := finishCalc_conv_mi fetched_rate a p st slt hty
            constructor
            · intro hle
              rw [hmi, if_neg (not_lt.mpr (hltv ▸ hle))]
            · intro hgt
              rw [hmi, if_pos (hltv ▸ hgt), hla, hltv]
              rw [get_conventional_mi_rate, if_neg (not_le.mpr (hltv ▸ hgt))]

/-- The MI-waiver witness scenario for C4: an 80/10/10 piggyback
(10% down, 10% second lien), first-lien LTV exactly 80%. -/
def c4PiggybackArgs : GetRateArgs :=
  { home_price := some (.num 500000), down_payment := some (.num 50000),
    second_lien_amount := some (.num 50000), annual_interest_rate := some 7 }

theorem claim_C4_witness :
    okAnd (get_rate 7.5 c4PiggybackArgs) (fun r =>
      r.loan_type = .conventional ∧ r.calculated_ltv = 0.80 ∧
      r.monthly_second_lien_payment > 0 ∧ r.monthly_mi = 0) := by
  have hbase : okAnd (get_rate 7.5 c4PiggybackArgs) (fun r =>
      r.loan_type = .conventional ∧ r.calculated_ltv = 0.80 ∧
      r.monthly_second_lien_payment > 0) := by decide!
  rcases (okAnd_iff _ _).mp hbase with ⟨res, hok, hty, hltv, hsl⟩
  have hmi := (claim_C4_conventional_mi 7.5 c4PiggybackArgs res hok hty).1
    (by rw [hltv])
  exact (okAnd_iff _ _).mpr ⟨res, hok, hty, hltv, hsl, hmi⟩

/-- Arguments used by C10, parameterized by the unit count. -/
def c10ConvArgs (u : ℤ) : GetRateArgs :=
  { home_price := some (.num 500000), down_payment := some (.num 100000),
    annual_interest_rate := some 7, units := u }

def c10FhaArgs (u : ℤ) : GetRateArgs :=
  { home_price := some (.num 500000), down_payment := some (.num 100000),
    loan_type := .enum .fha, annual_interest_rate := some 7, units := u }

/-- A $1,000,000 first lien: above the 1-unit Conventional limit (806500)
but below the 4-unit limit (1551250). -/
def c10BigArgs (u : ℤ) : GetRateArgs :=
  { home_price := some (.num 1250000), down_payment := some (.num 250000),
    annual_interest_rate := some 7, units := u }

/-- The Parsed record every c10 Conventional/FHA request produces. -/
def c10Parsed : Parsed :=
  { home_price := some 500000, loan_amount := none, down_payment := some 100000,
    second_lien_amount := none, second_lien_is_percentage := false,
    annual_property_tax := none, annual_home_insurance := none, ltv := none }

theorem resolveStructure_c10_conv (u : ℤ) (h5 : 5 ≤ u) :
    resolveStructure c10Parsed .conventional u = .error .indexError := by
  unfold resolveStructure
  rw [if_neg (by norm_num [c10Parsed])]
  rw [if_pos rfl]
  rw [limitLookup_out CONVENTIONAL_LOAN_LIMITS (u - 1)
    (by simp [CONVENTIONAL_LOAN_LIMITS]; omega)]

theorem resolveStructure_c10_fha (u : ℤ) (h5 : 5 ≤ u) :
    resolveStructure c10Parsed .fha u = .error .indexError := by
  unfold resolveStructure
  rw [if_neg (by norm_num [c10Parsed])]
  rw [if_neg (by simp)]
  dsimp only
  rw [if_pos (Or.inr rfl)]
  rw [limitLookup_out (LOAN_LIMITS .fha) (u - 1)
    (by simp [LOAN_LIMITS, FHA_LOAN_LIMITS]; omega)]

/-- C10: get_rate never validates units.  The conforming-limit subscript
LOAN_LIMITS[loan_type][units - 1] is a non-negative in-range index exactly
when 1 ≤ units ≤ 4; for a Conventional or FHA calculation, units ≥ 5 raises
an uncaught IndexError (no error message is returned to the caller), while
units = 0 silently selects the 4-unit limit through Python negative indexing
— a $1,000,000 first lien that is escalated to Jumbo at units = 1 stays
Conventional at units = 0, because the lookup yields the 4-unit limit
1551250. -/
theorem claim_C10_units_validation :
    (∀ u : ℤ, (0 ≤ u - 1 ∧ u - 1 < (CONVENTIONAL_LOAN_LIMITS.length : ℤ)) ↔
      (1 ≤ u ∧ u ≤ 4)) ∧
    (∀ u : ℤ, (0 ≤ u - 1 ∧ u - 1 < (FHA_LOAN_LIMITS.length : ℤ)) ↔
      (1 ≤ u ∧ u ≤ 4)) ∧
    (∀ u : ℤ, 5 ≤ u → get_rate 7.5 (c10ConvArgs u) = .error .indexError) ∧
    (∀ u : ℤ, 5 ≤ u → get_rate 7.5 (c10FhaArgs u) = .error .indexError) ∧
    pyListGet CONVENTIONAL_LOAN_LIMITS (0 - 1) = .ok 1551250 ∧
    okAnd (get_rate 7.5 (c10BigArgs 0)) (fun r =>
      r.loan_type = .conventional ∧ r.loan_amount = 1000000) ∧
    okAnd (get_rate 7.5 (c10BigArgs 1)) (fun r => r.loan_type = .jumbo) := by
  refine ⟨?_, ?_, ?_, ?_, by decide!, by decide!, by decide!⟩
  · intro u
    simp [CONVENTIONAL_LOAN_LIMITS]
    omega
  · intro u
    simp [FHA_LOAN_LIMITS]
    omega
  · intro u h5
    have hp : parseInputs (c10ConvArgs u) = .ok c10Parsed := rfl
    unfold get_rate
    rw [hp]
    dsimp only
    rw [if_neg (by simp [c10Parsed])]
    have hlt : validate_normalize_loan_type (c10ConvArgs u).loan_type =
        .ok .conventional := rfl
    rw [hlt]
    dsimp only
    have hs : normalizeSecondLienType (c10ConvArgs u).second_lien_type
        c10Parsed.second_lien_amount = .ok (some .interest_only) := rfl
    rw [hs]
    dsimp only
    rw [show (c10ConvArgs u).units = u from rfl,
      resolveStructure_c10_conv u h5]
  · intro u h5
    have hp : parseInputs (c10FhaArgs u) = .ok c10Parsed := rfl
    unfold get_rate
    rw [hp]
    dsimp only
    rw [if_neg (by simp [c10Parsed])]
    have hlt : validate_normalize_loan_type (c10FhaArgs u).loan_type =
        .ok .fha := rfl
    rw [hlt]
    dsimp only
    have hs : normalizeSecondLienType (c10FhaArgs u).second_lien_type
        c10Parsed.second_lien_amount = .ok (some .interest_only) := rfl
    rw [hs]
    dsimp only
    rw [show (c10FhaArgs u).units = u from rfl,
      resolveStructure_c10_fha u h5]

theorem claim_C10_witness :
    (5 : ℤ) ≤ 5 ∧ get_rate 7.5 (c10ConvArgs 5) = .error .indexError ∧
      get_rate 7.5 (c10FhaArgs 5) = .error .indexError :=
  ⟨le_refl 5, claim_C10_units_validation.2.2.1 5 (le_refl 5),
    claim_C10_units_validation.2.2.2.1 5 (le_refl 5)⟩

/-- C2: In get_rate, for every request reaching the LTV-policy step
(source lines 811-818) with loan type Conventional: a computed (rounded)
first-lien LTV in (95%, 96.5%] downgrades the loan type to FHA and the
calculation continues; an LTV above 96.5% aborts with the hard LTV error
recommending FHA; and every FHA request whose computed LTV exceeds 96.5%
aborts with the FHA hard error.  In particular LTV = 96% downgrades
Conventional to FHA and LTV = 97% is a hard error for both. -/
theorem claim_C2_ltv_policy :
    (∀ ltv : ℚ, 0.95 < ltv → ltv ≤ 0.965 →
      ltv_policy .conventional ltv = .ok .fha) ∧
    (∀ ltv : ℚ, 0.965 < ltv →
      ltv_policy .conventional ltv = .error (.ltvExceedsConventionalMax ltv)) ∧
    (∀ ltv : ℚ, 0.965 < ltv →
      ltv_policy .fha ltv = .error (.ltvExceedsFhaMax ltv)) ∧
    ltv_policy .conventional 0.96 = .ok .fha ∧
    ltv_policy .conventional 0.97 = .error (.ltvExceedsConventionalMax 0.97) ∧
    ltv_policy .fha 0.97 = .error (.ltvExceedsFhaMax 0.97) := by
  refine ⟨?_, ?_, ?_, by decide!, by decide!, by decide!⟩
  · intro ltv h1 h2
    rw [ltv_policy, if_pos ⟨rfl, h1⟩, if_neg (not_lt.mpr h2)]
  · intro ltv h
    rw [ltv_policy, if_pos ⟨rfl, lt_trans (by norm_num) h⟩, if_pos h]
  · intro ltv h
    rw [ltv_policy, if_neg (by simp), if_pos ⟨rfl, h⟩]

theorem claim_C2_witness :
    (0.95 : ℚ) < 0.96 ∧ (0.96 : ℚ) ≤ 0.965 ∧
      ltv_policy .conventional 0.96 = .ok .fha :=
  ⟨by norm_num, by norm_num, claim_C2_ltv_policy.1 0.96 (by norm_num) (by norm_num)⟩

/-- C5: calculate_va_funding_fee returns 0 whenever is_exempt is true,
regardless of the other arguments; otherwise it returns loan_amount times the
table rate selected by first-time/subsequent use and the down payment tier
computed as down_payment / (loan_amount + down_payment) (≥10%, ≥5%, else
no-down).  First-time use with 0 down yields loan_amount times the
first-time no-down rate, and first-time use with 10% down (down payment =
one ninth of the loan amount) yields loan_amount times the first-time
10%-down rate. -/
theorem claim_C5_va_funding_fee :
    (∀ (la dp : ℚ) (ft : Bool), calculate_va_funding_fee la dp ft true = 0) ∧
    (∀ (la dp : ℚ) (ft : Bool), 0 < la + dp →
      calculate_va_funding_fee la dp ft false =
        la * (let row := if ft then VA_FUNDING_FEES_first_time else VA_FUNDING_FEES_subsequent
              if dp / (la + dp) ≥ 0.10 then row.ten_percent_down
              else if dp / (la + dp) ≥ 0.05 then row.five_percent_down
              else row.no_down)) ∧
    (∀ la : ℚ, calculate_va_funding_fee la 0 true false =
      la * VA_FUNDING_FEES_first_time.no_down) ∧
    (∀ la : ℚ, 0 < la → calculate_va_funding_fee la (la / 9) true false =
      la * VA_FUNDING_FEES_first_time.ten_percent_down) := by
  refine ⟨fun la dp ft => rfl, ?_, ?_, ?_⟩
  · intro la dp ft h
    simp only [calculate_va_funding_fee, Bool.false_eq_true, if_false]
    rw [if_pos h]
  · intro la
    simp only [calculate_va_funding_fee, Bool.false_eq_true, if_false]
    by_cases h : (0 : ℚ) < la + 0
    · rw [if_pos h]
      norm_num [VA_FUNDING_FEES_first_time]
    · rw [if_neg h]
      norm_num [VA_FUNDING_FEES_first_time]
  · intro la h
    have hhp : (0 : ℚ) < la + la / 9 := by linarith
    have hne : la + la / 9 ≠ 0 := ne_of_gt hhp
    have hpct : la / 9 / (la + la / 9) = 1 / 10 := by
      field_simp
      ring
    simp only [calculate_va_funding_fee, Bool.false_eq_true, if_false]
    rw [if_pos hhp, hpct]
    norm_num [VA_FUNDING_FEES_first_time]

theorem claim_C5_witness :
    ((0 : ℚ) < 9 + 1 ∧ calculate_va_funding_fee 9 1 true false =
      9 * (let row := VA_FUNDING_FEES_first_time
           if (1 : ℚ) / (9 + 1) ≥ 0.10 then row.ten_percent_down
           else if (1 : ℚ) / (9 + 1) ≥ 0.05 then row.five_percent_down
           else row.no_down)) ∧
    ((0 : ℚ) < 900 ∧ calculate_va_funding_fee 900 (900 / 9) true false =
      900 * VA_FUNDING_FEES_first_time.ten_percent_down) := by
  constructor
  · refine ⟨by norm_num, ?_⟩
    have h := claim_C5_va_funding_fee.2.1 9 1 true (by norm_num)
    simpa using h
  · exact ⟨by norm_num, claim_C5_va_funding_fee.2.2.2 900 (by norm_num)⟩

/-- C6: For every loan amount, base rate and term, each buydown variant of
calculate_buydown_scenarios satisfies: total_subsidy is the sum of the
variant's annual_subsidy values; each reduced year's payment is the amortized
payment on the full original term at the base rate minus that year's
reduction (3/1: 3,2,1 points in years 1-3; 2/1: 2,1 points in years 1-2;
1/1: 1 point in year 1); and the variant's base_payment (the payment after
the reduction window) equals the standard scenario's payment. -/
theorem claim_C6_buydown_consistency (L r : ℚ) (t : ℕ) :
    ((calculate_buydown_scenarios L r t).buydown_3_1.total_subsidy =
       ((calculate_buydown_scenarios L r t).buydown_3_1.years.map
          BuydownYear.annual_subsidy).sum ∧
     (calculate_buydown_scenarios L r t).buydown_2_1.total_subsidy =
       ((calculate_buydown_scenarios L r t).buydown_2_1.years.map
          BuydownYear.annual_subsidy).sum ∧
     (calculate_buydown_scenarios L r t).buydown_1_1.total_subsidy =
       ((calculate_buydown_scenarios L r t).buydown_1_1.years.map
          BuydownYear.annual_subsidy).sum) ∧
    ((calculate_buydown_scenarios L r t).buydown_3_1.years.map
        (fun y => (y.year, y.payment)) =
      [(1, calculate_monthly_pi_payment L (r - 3) t),
       (2, calculate_monthly_pi_payment L (r - 2) t),
       (3, calculate_monthly_pi_payment L (r - 1) t)] ∧
     (calculate_buydown_scenarios L r t).buydown_2_1.years.map
        (fun y => (y.year, y.payment)) =
      [(1, calculate_monthly_pi_payment L (r - 2) t),
       (2, calculate_monthly_pi_payment L (r - 1) t)] ∧
     (calculate_buydown_scenarios L r t).buydown_1_1.years.map
        (fun y => (y.year, y.payment)) =
      [(1, calculate_monthly_pi_payment L (r - 1) t)]) ∧
    ((calculate_buydown_scenarios L r t).buydown_3_1.base_payment =
       (calculate_buydown_scenarios L r t).standard.payment ∧
     (calculate_buydown_scenarios L r t).buydown_2_1.base_payment =
       (calculate_buydown_scenarios L r t).standard.payment ∧
     (calculate_buydown_scenarios L r t).buydown_1_1.base_payment =
       (calculate_buydown_scenarios L r t).standard.payment) := by
  refine ⟨⟨?_, ?_, ?_⟩, ⟨?_, ?_, ?_⟩, ⟨rfl, rfl, rfl⟩⟩ <;>
    simp [calculate_buydown_scenarios, buydownYears, buydownTotal] <;>
    first
    | ring1
    | norm_num

/-- C7: fetch_freddie_mac_rate never propagates an exception: the failure of
the fetch/parse of the rate page (modelled as the .error outcome of the
external call) is always replaced by the static per-loan-type fallback rate,
which is 7.5 for every loan type and in particular for a 30-year conventional
loan; so a rate-source failure never aborts the calculation (the function
totally returns a rate). -/
theorem claim_C7_fetch_fallback :
    (∀ (e : Unit) (lt : String) (t : ℤ),
      fetch_freddie_mac_rate (.error e) lt t = fallback_rates lt) ∧
    fallback_rates "conventional" = 7.5 ∧
    fetch_freddie_mac_rate (.error ()) "conventional" 30 = 7.5 := by
  exact ⟨fun e lt t => rfl, rfl, rfl⟩

/-! ### Digit-free strings (claim C3) -/

theorem pyToLower_isDigit (c : Char) : (pyToLower c).isDigit = c.isDigit := by
  unfold pyToLower
  split <;> rfl

theorem pyToLower_eq_pct (c : Char) (h : pyToLower c = '%') : c = '%' := by
  unfold pyToLower at h
  split at h <;> first
    | exact h
    | exact absurd h (by decide)

theorem mem_of_mem_dropWhile {p : Char → Bool} {a : Char} :
    ∀ {l : List Char}, a ∈ l.dropWhile p → a ∈ l := by
  intro l h
  induction l with
  | nil => exact h
  | cons c cs ih =>
    rw [List.dropWhile_cons] at h
    split at h
    · exact List.mem_cons_of_mem _ (ih h)
    · exact h

theorem mem_stripWs {a : Char} {l : List Char} (h : a ∈ stripWs l) : a ∈ l := by
  unfold stripWs at h
  rw [List.mem_reverse] at h
  have h2 := mem_of_mem_dropWhile h
  rw [List.mem_reverse] at h2
  exact mem_of_mem_dropWhile h2

theorem matchWordAlt_mem (c : Char) (cs : List Char) (alts : List (List Char))
    (r : List Char) (h : matchWordAlt c cs alts = some r) :
    ∀ x ∈ r, x ∈ cs := by
  induction alts with
  | nil => simp [matchWordAlt] at h
  | cons a alts ih =>
    cases a with
    | nil => exact ih (by simp only [matchWordAlt] at h; exact h)
    | cons a0 atl =>
      rw [matchWordAlt] at h
      split at h
      · cases h
        exact fun x hx => List.drop_subset _ _ hx
      · exact ih h

theorem mem_subWordsFuel (alts : List (List Char)) :
    ∀ (fuel : ℕ) (b : Bool) (l : List Char) (x : Char),
      x ∈ subWordsFuel alts fuel b l → x ∈ l := by
  intro fuel
  induction fuel with
  | zero =>
    intro b l x h
    simp only [subWordsFuel] at h
    exact h
  | succ n ih =>
    intro b l x h
    cases l with
    | nil => simp only [subWordsFuel] at h; exact h
    | cons c cs =>
      rw [subWordsFuel] at h
      cases hm : (if b then none else matchWordAlt c cs alts) with
      | none =>
        rw [hm] at h
        dsimp only at h
        rcases List.mem_cons.mp h with rfl | h2
        · exact List.mem_cons_self _ _
        · exact List.mem_cons_of_mem _ (ih _ _ _ h2)
      | some rest =>
        rw [hm] at h
        dsimp only at h
        have hrest : ∀ y ∈ rest, y ∈ cs := by
          cases b with
          | true => simp at hm
          | false => exact matchWordAlt_mem c cs alts rest (by simpa using hm)
        exact List.mem_cons_of_mem _ (hrest x (ih _ _ _ h))

theorem mem_subWords {alts : List (List Char)} {b : Bool} {l : List Char}
    {x : Char} (h : x ∈ subWords alts b l) : x ∈ l :=
  mem_subWordsFuel alts l.length b l x h

theorem numSuffixMatch_none (sfx : Char) (l : List Char)
    (hnd : ∀ c ∈ l, c.isDigit = false) : numSuffixMatch sfx l = none := by
  induction l with
  | nil => rfl
  | cons c cs ih =>
    rw [numSuffixMatch]
    rw [if_neg (by simp [hnd c (List.mem_cons_self c cs)])]
    exact ih (fun x hx => hnd x (List.mem_cons_of_mem _ hx))

theorem findRunsGo_no_digit :
    ∀ (l acc : List Char), (∀ c ∈ l, c.isDigit = false) →
      (∀ c ∈ acc, c.isDigit = false) →
      ∀ r ∈ findRunsGo l acc, ∀ c ∈ r, c.isDigit = false := by
  intro l
  induction l with
  | nil =>
    intro acc hl hacc r hr c hc
    rw [findRunsGo] at hr
    split at hr
    · simp at hr
    · rcases List.mem_singleton.mp hr with rfl
      exact hacc c (List.mem_reverse.mp hc)
  | cons c0 cs ih =>
    intro acc hl hacc r hr c hc
    rw [findRunsGo] at hr
    split at hr
    · exact ih (c0 :: acc) (fun x hx => hl x (List.mem_cons_of_mem _ hx))
        (fun x hx => by
          rcases List.mem_cons.mp hx with rfl | hx2
          · exact hl x (List.mem_cons_self _ _)
          · exact hacc x hx2) r hr c hc
    · split at hr
      · exact ih [] (fun x hx => hl x (List.mem_cons_of_mem _ hx)) (by simp) r hr c hc
      · rcases List.mem_cons.mp hr with rfl | hr2
        · exact hacc c (List.mem_reverse.mp hc)
        · exact ih [] (fun x hx => hl x (List.mem_cons_of_mem _ hx)) (by simp) r hr2 c hc

theorem pyFloat_error (l : List Char) (hnd : ∀ c ∈ l, c.isDigit = false) :
    pyFloat l = .error () := by
  unfold pyFloat
  rw [if_neg]
  intro hcond
  rcases List.any_eq_true.mp hcond.2.1 with ⟨c, hc, hdig⟩
  rw [hnd c hc] at hdig
  exact Bool.false_ne_true hdig

/-- The common tail of parse_currency_amount after the percent branch: with a
digit-free working string, both glued-suffix regexes fail and the final
numeric extraction raises. -/
theorem parse_tail_error (mult : ℚ) (v : List Char)
    (hnd : ∀ c ∈ v, c.isDigit = false) :
    (match numSuffixMatch 'k' v with
     | some g => (pyFloat g).map (fun n => n * 1000)
     | none =>
       match numSuffixMatch 'm' v with
       | some g => (pyFloat g).map (fun n => n * 1000000)
       | none =>
         match findRuns (stripWs v) with
         | [] => .error ()
         | num :: _ => (pyFloat num).map (fun n => n * mult)) =
      (.error () : Except Unit ℚ) := by
  rw [numSuffixMatch_none 'k' v hnd, numSuffixMatch_none 'm' v hnd]
  dsimp only
  have hnds : ∀ c ∈ stripWs v, c.isDigit = false := fun c hc => hnd c (mem_stripWs hc)
  cases hfr : findRuns (stripWs v) with
  | nil => rfl
  | cons r rs =>
    have hr : ∀ c ∈ r, c.isDigit = false := by
      intro c hc
      exact findRunsGo_no_digit (stripWs v) [] hnds (by simp) r
        (by rw [← findRuns, hfr]; exact List.mem_cons_self _ _) c hc
    dsimp only
    rw [pyFloat_error r hr]
    rfl

/-- For every digit-free string without a percent sign,
parse_currency_amount raises ValueError. -/
theorem parse_no_digit_error (s : List Char)
    (hnd : ∀ c ∈ s, c.isDigit = false) (hnp : ¬ ('%' ∈ s)) :
    parse_currency_amount (.str s) = .error () := by
  simp only [parse_currency_amount]
  have hnd1 : ∀ c ∈ (stripWs s).map pyToLower, c.isDigit = false := by
    intro c hc
    rcases List.mem_map.mp hc with ⟨c0, hc0, rfl⟩
    rw [pyToLower_isDigit]
    exact hnd c0 (mem_stripWs hc0)
  have hpct : ¬ (((stripWs s).map pyToLower).contains '%' = true) := by
    intro hcon
    simp only [List.contains] at hcon
    rcases List.mem_map.mp (List.elem_iff.mp hcon) with ⟨c0, hc0, heq⟩
    exact hnp ((pyToLower_eq_pct c0 heq) ▸ mem_stripWs hc0)
  rw [if_neg hpct]
  have hnd2 : ∀ c ∈ subWords currencyWordAlts false
      (((stripWs s).map pyToLower).filter (fun c => !(c = '$' || c = ','))),
      c.isDigit = false :=
    fun c hc => hnd1 c (List.mem_filter.mp (mem_subWords hc)).1
  by_cases hk : searchWord kWordAlts false (subWords currencyWordAlts false
      (((stripWs s).map pyToLower).filter (fun c => !(c = '$' || c = ',')))) = true
  · rw [if_pos hk]
    dsimp only
    exact parse_tail_error 1000 _ (fun c hc => hnd2 c (mem_subWords hc))
  · rw [if_neg hk]
    by_cases hm : searchWord mWordAlts false (subWords currencyWordAlts false
        (((stripWs s).map pyToLower).filter (fun c => !(c = '$' || c = ',')))) = true
    · rw [if_pos hm]
      dsimp only
      exact parse_tail_error 1000000 _ (fun c hc => hnd2 c (mem_subWords hc))
    · rw [if_neg hm]
      dsimp only
      exact parse_tail_error 1 _ hnd2

/-- C3 as stated is false: the string "%" contains no digit, yet
parse_currency_amount returns 0.0 instead of raising — the percent branch
substitutes '0' when no numeric run is present (source line 55). -/
theorem claim_C3_counterexample :
    (∀ c ∈ chars "%", c.isDigit = false) ∧
    parse_currency_amount (.str (chars "%")) = .ok 0 := by
  constructor
  · decide!
  · decide!

/-- C3 (amended): for every string input containing no digit and no percent
sign, parse_currency_amount raises a parse error, surfaced by get_rate as the
"Invalid input format" message that aborts the calculation.  (The restriction
to strings without a percent sign is forced by the counterexample: the
percent branch returned 0.0 at the input "%".) -/
theorem claim_C3_amended (s : List Char) (fetched_rate : ℚ)
    (hnd : ∀ c ∈ s, c.isDigit = false) (hnp : ¬ ('%' ∈ s)) :
    parse_currency_amount (.str s) = .error () ∧
    get_rate fetched_rate { home_price := some (.str s) } = .error .invalidInput := by
  have hpe := parse_no_digit_error s hnd hnp
  refine ⟨hpe, ?_⟩
  simp [get_rate, parseInputs, optParse, hpe]

theorem claim_C3_witness :
    (∀ c ∈ chars "abc", c.isDigit = false) ∧ ¬ ('%' ∈ chars "abc") ∧
    parse_currency_amount (.str (chars "abc")) = .error () ∧
    get_rate 7.5 { home_price := some (.str (chars "abc")) } = .error .invalidInput := by
  refine ⟨by decide, by decide, ?_⟩
  have h := claim_C3_amended (chars "abc") 7.5 (by decide) (by decide)
  exact ⟨h.1, h.2⟩

/-- C8: parse_currency_amount parses "500k" to 500000.0, "1.5m" to
1500000.0, "20%" to 0.20, the number 20000 to 20000.0, and returns every
numeric (int/float) input unchanged as a float. -/
theorem claim_C8_parse_formats :
    parse_currency_amount (.str (chars "500k")) = .ok 500000 ∧
    parse_currency_amount (.str (chars "1.5m")) = .ok 1500000 ∧
    parse_currency_amount (.str (chars "20%")) = .ok 0.20 ∧
    parse_currency_amount (.num 20000) = .ok 20000 ∧
    (∀ q : ℚ, parse_currency_amount (.num q) = .ok q) :=
  ⟨by decide!, by decide!, by decide!, rfl, fun q => rfl⟩

end GetRateModel
